import Mathlib

/-!
Verification development for the COVI-ML masked set-transformer
(`src/models.py`, `_ContactTracingTransformer.forward` and the
`ContactTracingTransformer` constructor).

Tensors are embedded as lists of rational rows: a `B×N×C` tensor is
handled per batch element as a list of `N` rows, each a list of `C`
rationals (the batch dimension is an elementwise map and is dropped).
The helper modules `modules.py` (`mods.*`) and `attn.py` (`attn.SAB`)
are not part of the provided sources; the definitions below that stand
for them carry a doc comment starting with `Modelled from the spec:`.
Because a list of rows does not record the row width when the list is
empty (a `B×0×C` tensor does), the statically configured embedding
widths that `models.py` reads off tensor shapes are carried as fields
of the `Model` structure.
-/

namespace COVIML

/-- A feature vector (one entity's channels): last tensor dimension. -/
abbrev Vec := List ℚ

/-- An entity matrix for one batch element: set dimension × channels. -/
abbrev Mat := List Vec

/-- Modelled from the spec: `mods.EntityMasker` (module missing from
src/), spec §4.2: elementwise multiply of each entity's feature vector
by its mask bit, broadcast over the feature dimension; no parameters. -/
def entityMasker (x : Mat) (mask : Vec) : Mat :=
  List.zipWith (fun row m => row.map (fun v => m * v)) x mask

/-- `torch.cat([a, b], dim=-1)` on matching set dimensions: rowwise
concatenation of channels. -/
def zipCat (a b : Mat) : Mat :=
  List.zipWith (fun r s => r ++ s) a b

/-- One batch element of the input mapping accepted by
`_ContactTracingTransformer.forward` (src/models.py lines 60-105). -/
structure Inputs where
  health_history : Mat
  health_profile : Vec
  history_days : Mat
  valid_history_mask : Vec
  encounter_health : Mat
  encounter_message : Mat
  encounter_day : Mat
  encounter_duration : Mat
  encounter_partner_id : Mat
  mask : Vec

/-- Modelled from the spec: the embedder sub-modules
(`mods.HealthHistoryEmbedding`, `mods.TimeEmbedding`,
`mods.PositionalEncoding`, `mods.DurationEmbedding`,
`mods.PartnerIdEmbedding`, `mods.MessageEmbedding`) and `attn.SAB` are
missing from src/. Spec §4.1: each embedder is a pure function
`(raw_values, validity_mask) → embedded_vector` of fixed output width,
applied per entity; they are fields of type `Vec → ℚ → Vec` (one
entity's raw features and its mask bit). Spec §4.4: an attention block
produces one output row per input entity, each row a function of the
whole entity matrix and the pairwise attention mask; a block is a field
of type `Mat → Mat → ℕ → Vec` (entities, attention mask, row index).
The `*_dim` fields record the fixed output widths (torch layer
configuration). The placeholders are the learned parameter vectors of
`_ContactTracingTransformer.__init__`. The `self_attention_blocks`
field models the `num_sabs >= 1` path, where every block is an
`attn.SAB` accepting the `weights` keyword; the `num_sabs = 0`
baseline `nn.Sequential`, whose call with `weights=` raises, is
modelled separately by `Block` and `forwardWithBlocks` below. -/
structure Model where
  time_dim : ℕ
  pid_dim : ℕ
  dur_dim : ℕ
  hh_dim : ℕ
  msg_dim : ℕ
  health_history_embedding : Vec → ℚ → Vec
  health_profile_embedding : Vec → Vec
  time_embedding : Vec → ℚ → Vec
  duration_embedding : Vec → ℚ → Vec
  partner_id_embedding : Option (Vec → ℚ → Vec)
  message_embedding : Vec → ℚ → Vec
  self_attention_blocks : List (Mat → Mat → ℕ → Vec)
  latent_variable_mlp : Vec → Vec
  encounter_mlp : Vec → Vec
  message_placeholder : Vec
  partner_id_placeholder : Vec
  duration_placeholder : Vec
  encounter_output_features : ℕ
  latent_variable_output_features : ℕ

/-- `num_encounters = inputs["encounter_health"].shape[1]`
(src/models.py line 109). -/
def numEncounters (inp : Inputs) : ℕ := inp.encounter_health.length

/-- `num_history_days = inputs["health_history"].shape[1]`
(src/models.py line 108). -/
def numHistoryDays (inp : Inputs) : ℕ := inp.health_history.length

/-- Apply a per-entity embedder over the set dimension with its mask. -/
def embMap (f : Vec → ℚ → Vec) (x : Mat) (mask : Vec) : Mat :=
  List.zipWith f x mask

/-- `embedded_health_history` (src/models.py lines 112-114). -/
def embeddedHealthHistory (m : Model) (inp : Inputs) : Mat :=
  embMap m.health_history_embedding inp.health_history inp.valid_history_mask

/-- `embedded_health_profile` (src/models.py lines 115-117). -/
def embeddedHealthProfile (m : Model) (inp : Inputs) : Vec :=
  m.health_profile_embedding inp.health_profile

/-- `embedded_encounter_health` (src/models.py lines 118-120). -/
def embeddedEncounterHealth (m : Model) (inp : Inputs) : Mat :=
  embMap m.health_history_embedding inp.encounter_health inp.mask

/-- `embedded_history_days` (src/models.py lines 122-124). -/
def embeddedHistoryDays (m : Model) (inp : Inputs) : Mat :=
  embMap m.time_embedding inp.history_days inp.valid_history_mask

/-- `embedded_encounter_day` (src/models.py lines 125-127). -/
def embeddedEncounterDay (m : Model) (inp : Inputs) : Mat :=
  embMap m.time_embedding inp.encounter_day inp.mask

/-- `embedded_encounter_duration` (src/models.py lines 128-130). -/
def embeddedEncounterDuration (m : Model) (inp : Inputs) : Mat :=
  embMap m.duration_embedding inp.encounter_duration inp.mask

/-- `self.partner_id_placeholder[None, None].expand(batch_size,
num_encounters, ...)` (src/models.py lines 137-139): the learned
placeholder broadcast to every encounter position. -/
def pidPlaceholderBroadcast (m : Model) (inp : Inputs) : Mat :=
  List.replicate (numEncounters inp) m.partner_id_placeholder

/-- `embedded_encounter_partner_ids` (src/models.py lines 132-142):
either the partner-id embedder applied to the raw ids, or — when the
embedder is disabled — the placeholder broadcast passed through the
Entity Masker. -/
def embeddedEncounterPartnerIds (m : Model) (inp : Inputs) : Mat :=
  match m.partner_id_embedding with
  | some f => embMap f inp.encounter_partner_id inp.mask
  | none => entityMasker (pidPlaceholderBroadcast m inp) inp.mask

/-- `embedded_encounter_messages` (src/models.py lines 144-146). -/
def embeddedEncounterMessages (m : Model) (inp : Inputs) : Mat :=
  embMap m.message_embedding inp.encounter_message inp.mask

/-- `encounter_entities` (src/models.py lines 150-163): channelwise
concatenation `[day, partner_id, duration, health, message, profile]`,
the health profile broadcast over encounters. -/
def encounterEntities (m : Model) (inp : Inputs) : Mat :=
  zipCat (embeddedEncounterDay m inp)
    (zipCat (embeddedEncounterPartnerIds m inp)
      (zipCat (embeddedEncounterDuration m inp)
        (zipCat (embeddedEncounterHealth m inp)
          (zipCat (embeddedEncounterMessages m inp)
            (List.replicate (numEncounters inp)
              (embeddedHealthProfile m inp))))))

/-- `self_entities` (src/models.py lines 164-188): same channel order,
with the learned placeholders for partner-id, duration and message
broadcast over the history days. -/
def selfEntities (m : Model) (inp : Inputs) : Mat :=
  zipCat (embeddedHistoryDays m inp)
    (zipCat (List.replicate (numHistoryDays inp) m.partner_id_placeholder)
      (zipCat (List.replicate (numHistoryDays inp) m.duration_placeholder)
        (zipCat (embeddedHealthHistory m inp)
          (zipCat (List.replicate (numHistoryDays inp) m.message_placeholder)
            (List.replicate (numHistoryDays inp)
              (embeddedHealthProfile m inp))))))

/-- `expanded_mask = torch.cat([inputs["mask"],
inputs["valid_history_mask"]], dim=1)` (src/models.py line 193). -/
def expandedMask (inp : Inputs) : Vec :=
  inp.mask ++ inp.valid_history_mask

/-- The merged entity set after the round-0 Entity Masker application
(src/models.py lines 192-194). -/
def entities0 (m : Model) (inp : Inputs) : Mat :=
  entityMasker (encounterEntities m inp ++ selfEntities m inp)
    (expandedMask inp)

/-- `meta_data_dim` (src/models.py lines 197-201): the summed widths of
the time, partner-id and duration embeddings, read off the layer
configuration (`shape[2]` of the corresponding tensors). -/
def metaDataDim (m : Model) : ℕ := m.time_dim + m.pid_dim + m.dur_dim

/-- `meta_data = entities[:, :, :meta_data_dim]` (src/models.py line
202): the masked round-0 metadata block. -/
def metaData (m : Model) (inp : Inputs) : Mat :=
  (entities0 m inp).map (fun r => r.take (metaDataDim m))

/-- `attention_mask = expanded_mask[:, :, None] * expanded_mask[:, None, :]`
(src/models.py line 205). -/
def attentionMask (inp : Inputs) : Mat :=
  (expandedMask inp).map (fun mi => (expandedMask inp).map (fun mj => mi * mj))

/-- Outer product of a mask vector with itself, written after the
spec's words (§3, "the outer product of the validity mask with
itself"), for comparison with `attentionMask`. -/
def maskOuterProduct (v : Vec) : Mat :=
  v.map (fun a => v.map (fun b => a * b))

/-- Modelled from the spec: application of one `attn.SAB` block
(module missing from src/), spec §4.4: a masked multi-head
self-attention block produces a new entity matrix with one row per
input entity; each output row is a function of the whole input entity
matrix and the pairwise attention mask. -/
def applySAB (mix : Mat → Mat → ℕ → Vec) (x w : Mat) : Mat :=
  (List.range x.length).map (mix x w)

/-- One iteration of the attention loop (src/models.py lines 208-212):
apply the block with the attention mask, re-apply the Entity Masker
with the merged mask, then prepend the round-0 metadata block. -/
def sabStep (m : Model) (inp : Inputs) (ents : Mat)
    (mix : Mat → Mat → ℕ → Vec) : Mat :=
  zipCat (metaData m inp)
    (entityMasker (applySAB mix ents (attentionMask inp)) (expandedMask inp))

/-- The entity matrix after the first `k` attention rounds. -/
def entitiesAfter (m : Model) (inp : Inputs) (k : ℕ) : Mat :=
  (m.self_attention_blocks.take k).foldl (sabStep m inp) (entities0 m inp)

/-- The entity matrix after the whole attention loop (src/models.py
lines 208-212), reaching the output heads. -/
def entitiesFinal (m : Model) (inp : Inputs) : Mat :=
  m.self_attention_blocks.foldl (sabStep m inp) (entities0 m inp)

/-- `pre_latent_variable = entities[:, num_encounters:]`
(src/models.py line 214). -/
def preLatentVariable (m : Model) (inp : Inputs) : Mat :=
  (entitiesFinal m inp).drop (numEncounters inp)

/-- `latent_variable = self.latent_variable_mlp(pre_latent_variable)`
(src/models.py line 217), the MLP applied per self-day row. -/
def latentVariable (m : Model) (inp : Inputs) : Mat :=
  (preLatentVariable m inp).map m.latent_variable_mlp

/-- `pre_encounter_variables = entities[:, :num_encounters,
meta_data_dim:]` (src/models.py line 220). -/
def preEncounterVariables (m : Model) (inp : Inputs) : Mat :=
  ((entitiesFinal m inp).take (numEncounters inp)).map
    (fun r => r.drop (metaDataDim m))

/-- `encounter_variables = self.encounter_mlp(pre_encounter_variables)`
(src/models.py line 221), the MLP applied per encounter row. -/
def encounterVariables (m : Model) (inp : Inputs) : Mat :=
  (preEncounterVariables m inp).map m.encounter_mlp

/-- The two standard outputs of the forward pass (src/models.py lines
223-225). -/
structure Outputs where
  encounter_variables : Mat
  latent_variable : Mat
deriving DecidableEq

/-- `_ContactTracingTransformer.forward` (src/models.py lines 60-233)
for one batch element. -/
def forward (m : Model) (inp : Inputs) : Outputs :=
  { encounter_variables := encounterVariables m inp
    latent_variable := latentVariable m inp }

/-- Shape contract of one batch element: every per-encounter field has
the set length of `mask`, every per-day field the set length of
`valid_history_mask` (the fixed tensor shapes `B×M×C` and `B×T×C` of
src/models.py lines 77-101). -/
structure Shaped (inp : Inputs) : Prop where
  hh : inp.health_history.length = inp.valid_history_mask.length
  hd : inp.history_days.length = inp.valid_history_mask.length
  eh : inp.encounter_health.length = inp.mask.length
  em : inp.encounter_message.length = inp.mask.length
  ed : inp.encounter_day.length = inp.mask.length
  edur : inp.encounter_duration.length = inp.mask.length
  epid : inp.encounter_partner_id.length = inp.mask.length

/-- Width contract of the model: each embedder, placeholder and output
MLP produces its configured fixed width (in torch this is forced by the
layer shapes). -/
structure WellFormed (m : Model) : Prop where
  time_len : ∀ x b, (m.time_embedding x b).length = m.time_dim
  dur_len : ∀ x b, (m.duration_embedding x b).length = m.dur_dim
  hh_len : ∀ x b, (m.health_history_embedding x b).length = m.hh_dim
  msg_len : ∀ x b, (m.message_embedding x b).length = m.msg_dim
  pid_emb_len : ∀ f, m.partner_id_embedding = some f →
    ∀ x b, (f x b).length = m.pid_dim
  pid_ph_len : m.partner_id_placeholder.length = m.pid_dim
  dur_ph_len : m.duration_placeholder.length = m.dur_dim
  msg_ph_len : m.message_placeholder.length = m.msg_dim
  enc_mlp_len : ∀ x, (m.encounter_mlp x).length = m.encounter_output_features
  lat_mlp_len : ∀ x,
    (m.latent_variable_mlp x).length = m.latent_variable_output_features

/-- A feature row is exactly zero. -/
def AllZero (r : Vec) : Prop := ∀ v ∈ r, v = 0

instance (r : Vec) : Decidable (AllZero r) := by
  unfold AllZero; infer_instance

/-! ### Basic lemmas about the list-level tensor operations -/

theorem length_entityMasker (x : Mat) (mask : Vec) :
    (entityMasker x mask).length = min x.length mask.length := by
  simp [entityMasker]

theorem getElem?_entityMasker (x : Mat) (mask : Vec) (i : ℕ) :
    (entityMasker x mask)[i]? = match x[i]?, mask[i]? with
      | some r, some b => some (r.map (fun v => b * v))
      | _, _ => none := by
  simp only [entityMasker, List.getElem?_zipWith]
  cases x[i]? <;> cases mask[i]? <;> rfl

theorem length_zipCat (a b : Mat) :
    (zipCat a b).length = min a.length b.length := by
  simp [zipCat]

theorem getElem?_zipCat (a b : Mat) (i : ℕ) :
    (zipCat a b)[i]? = match a[i]?, b[i]? with
      | some r, some s => some (r ++ s)
      | _, _ => none := by
  simp only [zipCat, List.getElem?_zipWith]
  cases a[i]? <;> cases b[i]? <;> rfl

theorem length_embMap (f : Vec → ℚ → Vec) (x : Mat) (mask : Vec) :
    (embMap f x mask).length = min x.length mask.length := by
  simp [embMap]

theorem getElem?_embMap (f : Vec → ℚ → Vec) (x : Mat) (mask : Vec) (i : ℕ) :
    (embMap f x mask)[i]? = match x[i]?, mask[i]? with
      | some r, some b => some (f r b)
      | _, _ => none := by
  simp only [embMap, List.getElem?_zipWith]
  cases x[i]? <;> cases mask[i]? <;> rfl

theorem length_applySAB (mix : Mat → Mat → ℕ → Vec) (x w : Mat) :
    (applySAB mix x w).length = x.length := by
  simp [applySAB]

/-- Multiplying every channel by the zero mask bit yields the zero row. -/
theorem map_zero_mul (r : Vec) :
    r.map (fun v => (0 : ℚ) * v) = List.replicate r.length 0 := by
  rw [List.eq_replicate_iff]
  constructor
  · simp
  · intro b hb
    rcases List.mem_map.1 hb with ⟨v, _, hv⟩
    simpa using hv.symm

theorem allZero_replicate (n : ℕ) : AllZero (List.replicate n (0 : ℚ)) := by
  intro v hv
  exact (List.eq_of_mem_replicate hv)

theorem allZero_zero_mul (r : Vec) :
    AllZero (r.map (fun v => (0 : ℚ) * v)) := by
  rw [map_zero_mul]; exact allZero_replicate _

theorem allZero_take (r : Vec) (d : ℕ) (h : AllZero r) : AllZero (r.take d) :=
  fun v hv => h v (List.mem_of_mem_take hv)

theorem allZero_append {r s : Vec} (hr : AllZero r) (hs : AllZero s) :
    AllZero (r ++ s) := by
  intro v hv
  rcases List.mem_append.1 hv with h | h
  · exact hr v h
  · exact hs v h

theorem embMap_eq_some {f : Vec → ℚ → Vec} {x : Mat} {mask : Vec} {i : ℕ}
    {r : Vec} : (embMap f x mask)[i]? = some r ↔
      ∃ a b, x[i]? = some a ∧ mask[i]? = some b ∧ f a b = r := by
  simp [embMap, List.getElem?_zipWith_eq_some]

theorem zipCat_eq_some {a b : Mat} {i : ℕ} {r : Vec} :
    (zipCat a b)[i]? = some r ↔
      ∃ s t, a[i]? = some s ∧ b[i]? = some t ∧ s ++ t = r := by
  simp [zipCat, List.getElem?_zipWith_eq_some]

theorem entityMasker_eq_some {x : Mat} {mask : Vec} {i : ℕ} {r : Vec} :
    (entityMasker x mask)[i]? = some r ↔
      ∃ s b, x[i]? = some s ∧ mask[i]? = some b ∧
        s.map (fun v => b * v) = r := by
  simp [entityMasker, List.getElem?_zipWith_eq_some]

/-! ### Set-dimension lengths under the shape contract -/

theorem length_expandedMask (inp : Inputs) :
    (expandedMask inp).length =
      inp.mask.length + inp.valid_history_mask.length := by
  simp [expandedMask]

theorem length_embeddedEncounterPartnerIds (m : Model) (inp : Inputs)
    (hs : Shaped inp) :
    (embeddedEncounterPartnerIds m inp).length = inp.mask.length := by
  cases h : m.partner_id_embedding with
  | none =>
      simp [embeddedEncounterPartnerIds, h, length_entityMasker,
        pidPlaceholderBroadcast, numEncounters, hs.eh]
  | some f =>
      simp [embeddedEncounterPartnerIds, h, length_embMap, hs.epid]

theorem length_encounterEntities (m : Model) (inp : Inputs)
    (hs : Shaped inp) :
    (encounterEntities m inp).length = inp.mask.length := by
  simp [encounterEntities, length_zipCat, length_embMap,
    embeddedEncounterDay, embeddedEncounterDuration, embeddedEncounterHealth,
    embeddedEncounterMessages, length_embeddedEncounterPartnerIds m inp hs,
    numEncounters, hs.eh, hs.em, hs.ed, hs.edur]

theorem length_selfEntities (m : Model) (inp : Inputs) (hs : Shaped inp) :
    (selfEntities m inp).length = inp.valid_history_mask.length := by
  simp [selfEntities, length_zipCat, length_embMap, embeddedHistoryDays,
    embeddedHealthHistory, numHistoryDays, hs.hh, hs.hd]

theorem length_entities0 (m : Model) (inp : Inputs) (hs : Shaped inp) :
    (entities0 m inp).length =
      inp.mask.length + inp.valid_history_mask.length := by
  simp [entities0, length_entityMasker, length_expandedMask,
    length_encounterEntities m inp hs, length_selfEntities m inp hs]

theorem length_metaData (m : Model) (inp : Inputs) (hs : Shaped inp) :
    (metaData m inp).length =
      inp.mask.length + inp.valid_history_mask.length := by
  simp [metaData, length_entities0 m inp hs]

theorem length_sabStep (m : Model) (inp : Inputs) (hs : Shaped inp)
    (ents : Mat) (mix : Mat → Mat → ℕ → Vec)
    (h : ents.length = inp.mask.length + inp.valid_history_mask.length) :
    (sabStep m inp ents mix).length =
      inp.mask.length + inp.valid_history_mask.length := by
  simp [sabStep, length_zipCat, length_entityMasker, length_applySAB,
    length_expandedMask, length_metaData m inp hs, h]

theorem length_foldl_sabStep (m : Model) (inp : Inputs) (hs : Shaped inp) :
    ∀ (bs : List (Mat → Mat → ℕ → Vec)) (ents : Mat),
      ents.length = inp.mask.length + inp.valid_history_mask.length →
      (bs.foldl (sabStep m inp) ents).length =
        inp.mask.length + inp.valid_history_mask.length := by
  intro bs
  induction bs with
  | nil => intro ents h; simpa using h
  | cons mix bs ih =>
      intro ents h
      exact ih _ (length_sabStep m inp hs ents mix h)

theorem length_entitiesFinal (m : Model) (inp : Inputs) (hs : Shaped inp) :
    (entitiesFinal m inp).length =
      inp.mask.length + inp.valid_history_mask.length :=
  length_foldl_sabStep m inp hs _ _ (length_entities0 m inp hs)

theorem length_entitiesAfter (m : Model) (inp : Inputs) (hs : Shaped inp)
    (k : ℕ) :
    (entitiesAfter m inp k).length =
      inp.mask.length + inp.valid_history_mask.length :=
  length_foldl_sabStep m inp hs _ _ (length_entities0 m inp hs)

/-! ### Entity row widths under the width contract -/

/-- The channel width of one assembled entity row (`sab_in_dim` of the
constructor, src/models.py lines 311-318). -/
def entityWidth (m : Model) (inp : Inputs) : ℕ :=
  m.time_dim + m.pid_dim + m.dur_dim + m.hh_dim + m.msg_dim +
    (embeddedHealthProfile m inp).length

theorem row_length_embeddedEncounterPartnerIds {m : Model} {inp : Inputs}
    (hw : WellFormed m) {i : ℕ} {r : Vec}
    (h : (embeddedEncounterPartnerIds m inp)[i]? = some r) :
    r.length = m.pid_dim := by
  cases hpe : m.partner_id_embedding with
  | none =>
      simp only [embeddedEncounterPartnerIds, hpe] at h
      rcases entityMasker_eq_some.1 h with ⟨s, b, hsome, _, hmap⟩
      have hs : s = m.partner_id_placeholder :=
        List.eq_of_mem_replicate
          (List.getElem?_mem (by simpa [pidPlaceholderBroadcast] using hsome))
      subst hs
      simp [← hmap, hw.pid_ph_len]
  | some f =>
      simp only [embeddedEncounterPartnerIds, hpe] at h
      rcases embMap_eq_some.1 h with ⟨a, b, _, _, hfab⟩
      simpa [← hfab] using hw.pid_emb_len f hpe a b

theorem row_length_encounterEntities {m : Model} {inp : Inputs}
    (hw : WellFormed m) {i : ℕ} {r : Vec}
    (h : (encounterEntities m inp)[i]? = some r) :
    r.length = entityWidth m inp := by
  rcases zipCat_eq_some.1 h with ⟨rd, t1, hrd, h1, hc1⟩
  rcases zipCat_eq_some.1 h1 with ⟨rp, t2, hrp, h2, hc2⟩
  rcases zipCat_eq_some.1 h2 with ⟨rdur, t3, hrdur, h3, hc3⟩
  rcases zipCat_eq_some.1 h3 with ⟨rh, t4, hrh, h4, hc4⟩
  rcases zipCat_eq_some.1 h4 with ⟨rm, t5, hrm, h5, hc5⟩
  have hprof : t5 = embeddedHealthProfile m inp :=
    List.eq_of_mem_replicate (List.getElem?_mem h5)
  rcases embMap_eq_some.1 hrd with ⟨a1, b1, _, _, hf1⟩
  rcases embMap_eq_some.1 hrdur with ⟨a3, b3, _, _, hf3⟩
  rcases embMap_eq_some.1 hrh with ⟨a4, b4, _, _, hf4⟩
  rcases embMap_eq_some.1 hrm with ⟨a5, b5, _, _, hf5⟩
  have lp := row_length_embeddedEncounterPartnerIds hw hrp
  subst hc1 hc2 hc3 hc4 hc5 hprof
  simp [entityWidth, ← hf1, ← hf3, ← hf4, ← hf5, hw.time_len, hw.dur_len,
    hw.hh_len, hw.msg_len, lp]
  omega

theorem row_length_selfEntities {m : Model} {inp : Inputs}
    (hw : WellFormed m) {i : ℕ} {r : Vec}
    (h : (selfEntities m inp)[i]? = some r) :
    r.length = entityWidth m inp := by
  rcases zipCat_eq_some.1 h with ⟨rd, t1, hrd, h1, hc1⟩
  rcases zipCat_eq_some.1 h1 with ⟨rp, t2, hrp, h2, hc2⟩
  rcases zipCat_eq_some.1 h2 with ⟨rdur, t3, hrdur, h3, hc3⟩
  rcases zipCat_eq_some.1 h3 with ⟨rh, t4, hrh, h4, hc4⟩
  rcases zipCat_eq_some.1 h4 with ⟨rm, t5, hrm, h5, hc5⟩
  have hprof : t5 = embeddedHealthProfile m inp :=
    List.eq_of_mem_replicate (List.getElem?_mem h5)
  rcases embMap_eq_some.1 hrd with ⟨a1, b1, _, _, hf1⟩
  have hp : rp = m.partner_id_placeholder :=
    List.eq_of_mem_replicate (List.getElem?_mem hrp)
  have hdur : rdur = m.duration_placeholder :=
    List.eq_of_mem_replicate (List.getElem?_mem hrdur)
  rcases embMap_eq_some.1 hrh with ⟨a4, b4, _, _, hf4⟩
  have hm : rm = m.message_placeholder :=
    List.eq_of_mem_replicate (List.getElem?_mem hrm)
  subst hc1 hc2 hc3 hc4 hc5 hprof hp hdur hm
  simp [entityWidth, ← hf1, ← hf4, hw.time_len, hw.hh_len,
    hw.pid_ph_len, hw.dur_ph_len, hw.msg_ph_len]
  omega

theorem row_length_entities0 {m : Model} {inp : Inputs}
    (hw : WellFormed m) {i : ℕ} {r : Vec}
    (h : (entities0 m inp)[i]? = some r) :
    r.length = entityWidth m inp := by
  rcases entityMasker_eq_some.1 h with ⟨s, b, hsome, _, hmap⟩
  rw [List.getElem?_append] at hsome
  have hslen : s.length = entityWidth m inp := by
    split at hsome
    · exact row_length_encounterEntities hw hsome
    · exact row_length_selfEntities hw hsome
  simp [← hmap, hslen]

theorem metaDataDim_le_entityWidth (m : Model) (inp : Inputs) :
    metaDataDim m ≤ entityWidth m inp := by
  simp [metaDataDim, entityWidth]
  omega

theorem metaData_row_length {m : Model} {inp : Inputs} (hw : WellFormed m) :
    ∀ r ∈ metaData m inp, r.length = metaDataDim m := by
  intro r hr
  rcases List.mem_map.1 hr with ⟨r0, hr0, hrtake⟩
  rcases List.getElem?_of_mem hr0 with ⟨i, hi⟩
  have hw0 := row_length_entities0 hw hi
  rw [← hrtake, List.length_take, hw0]
  exact Nat.min_eq_left (metaDataDim_le_entityWidth m inp)

/-! ### Metadata persistence machinery -/

theorem zipCat_map_take (d : ℕ) :
    ∀ (a b : Mat), a.length ≤ b.length → (∀ r ∈ a, r.length = d) →
      (zipCat a b).map (fun r => r.take d) = a := by
  intro a
  induction a with
  | nil => intro b _ _; simp [zipCat]
  | cons r a ih =>
      intro b hlen hrow
      cases b with
      | nil => simp at hlen
      | cons s b =>
          simp only [zipCat, List.zipWith_cons_cons, List.map_cons,
            List.cons.injEq]
          constructor
          · exact List.take_left' (hrow r (List.mem_cons_self r a))
          · exact ih b (by simpa using hlen)
              (fun t ht => hrow t (List.mem_cons_of_mem r ht))

theorem sabStep_map_take {m : Model} {inp : Inputs} (hs : Shaped inp)
    (hw : WellFormed m) (ents : Mat) (mix : Mat → Mat → ℕ → Vec)
    (hlen : ents.length =
      inp.mask.length + inp.valid_history_mask.length) :
    (sabStep m inp ents mix).map (fun r => r.take (metaDataDim m)) =
      metaData m inp := by
  apply zipCat_map_take
  · rw [length_metaData m inp hs, length_entityMasker, length_applySAB,
      length_expandedMask, hlen]
    simp
  · exact metaData_row_length hw

theorem foldl_sabStep_map_take {m : Model} {inp : Inputs} (hs : Shaped inp)
    (hw : WellFormed m) :
    ∀ (bs : List (Mat → Mat → ℕ → Vec)) (ents : Mat),
      ents.length = inp.mask.length + inp.valid_history_mask.length →
      ents.map (fun r => r.take (metaDataDim m)) = metaData m inp →
      (bs.foldl (sabStep m inp) ents).map (fun r => r.take (metaDataDim m)) =
        metaData m inp := by
  intro bs
  induction bs with
  | nil => intro ents _ h; simpa using h
  | cons mix bs ih =>
      intro ents hlen _
      exact ih _ (length_sabStep m inp hs ents mix hlen)
        (sabStep_map_take hs hw ents mix hlen)

/-! ### Mask-zeroing machinery -/

theorem entities0_masked_zero {m : Model} {inp : Inputs} {i : ℕ}
    (h0 : (expandedMask inp)[i]? = some 0) :
    ∀ r, (entities0 m inp)[i]? = some r → AllZero r := by
  intro r hr
  rcases entityMasker_eq_some.1 hr with ⟨s, b, _, hb, hmap⟩
  have hb0 : b = 0 := by
    rw [h0] at hb
    exact (Option.some.inj hb).symm
  subst hb0
  rw [← hmap]
  exact allZero_zero_mul s

theorem metaData_masked_zero {m : Model} {inp : Inputs} {i : ℕ}
    (h0 : (expandedMask inp)[i]? = some 0) :
    ∀ r, (metaData m inp)[i]? = some r → AllZero r := by
  intro r hr
  simp only [metaData, List.getElem?_map] at hr
  rcases Option.map_eq_some'.1 hr with ⟨r0, hr0, hrtake⟩
  rw [← hrtake]
  exact allZero_take r0 _ (entities0_masked_zero h0 r0 hr0)

theorem sabStep_masked_zero {m : Model} {inp : Inputs} {i : ℕ}
    (h0 : (expandedMask inp)[i]? = some 0)
    (ents : Mat) (mix : Mat → Mat → ℕ → Vec) :
    ∀ r, (sabStep m inp ents mix)[i]? = some r → AllZero r := by
  intro r hr
  rcases zipCat_eq_some.1 hr with ⟨s, t, hsome, htail, hcat⟩
  rcases entityMasker_eq_some.1 htail with ⟨u, b, _, hb, hmap⟩
  have hb0 : b = 0 := by
    rw [h0] at hb
    exact (Option.some.inj hb).symm
  subst hb0
  rw [← hcat]
  exact allZero_append (metaData_masked_zero h0 s hsome)
    (by rw [← hmap]; exact allZero_zero_mul u)

theorem foldl_sabStep_masked_zero {m : Model} {inp : Inputs} {i : ℕ}
    (h0 : (expandedMask inp)[i]? = some 0) :
    ∀ (bs : List (Mat → Mat → ℕ → Vec)) (ents : Mat),
      (∀ r, ents[i]? = some r → AllZero r) →
      ∀ r, (bs.foldl (sabStep m inp) ents)[i]? = some r → AllZero r := by
  intro bs
  induction bs with
  | nil => intro ents h; simpa using h
  | cons mix bs ih =>
      intro ents _
      exact ih _ (sabStep_masked_zero h0 ents mix)

/-! ### Claim theorems -/

/-- C2. Mask-zeroing: for every batch element and every entity position
whose merged-mask bit (`mask` for encounters, `valid_history_mask` for
self-days) is 0, the entity's full feature vector immediately after
each application of the Entity Masker — the round-0 matrix after
assembly (`entitiesAfter 0`), the matrix after every attention round
including the metadata prefix concatenated afterwards
(`entitiesAfter k`), and the masker output of a round before the
prefix is concatenated — is exactly the zero vector. -/
theorem mask_zeroing (m : Model) (inp : Inputs) (k i : ℕ)
    (h0 : (expandedMask inp)[i]? = some 0) :
    (∀ r, (entitiesAfter m inp k)[i]? = some r → AllZero r) ∧
    (∀ (ents : Mat) (mix : Mat → Mat → ℕ → Vec) r,
      (entityMasker (applySAB mix ents (attentionMask inp))
        (expandedMask inp))[i]? = some r → AllZero r) := by
  constructor
  · exact foldl_sabStep_masked_zero h0 _ _ (entities0_masked_zero h0)
  · intro ents mix r hr
    rcases entityMasker_eq_some.1 hr with ⟨s, b, _, hb, hmap⟩
    have hb0 : b = 0 := by
      rw [h0] at hb
      exact (Option.some.inj hb).symm
    subst hb0
    rw [← hmap]
    exact allZero_zero_mul s

/-- C3. Attention-mask construction: the pairwise attention mask passed
to every self-attention block (the single `attentionMask` used by every
`sabStep` of the forward loop) is the outer product of the merged
validity mask with itself, and its entry at any pair `(i, j)` where
either entity has mask bit 0 is exactly 0. -/
theorem attention_mask_outer (inp : Inputs) (i j : ℕ) (mi mj : ℚ)
    (hi : (expandedMask inp)[i]? = some mi)
    (hj : (expandedMask inp)[j]? = some mj)
    (hz : mi = 0 ∨ mj = 0) :
    attentionMask inp = maskOuterProduct (expandedMask inp) ∧
    ∃ row, (attentionMask inp)[i]? = some row ∧ row[j]? = some 0 := by
  refine ⟨rfl, (expandedMask inp).map (fun b => mi * b), ?_, ?_⟩
  · simp [attentionMask, List.getElem?_map, hi]
  · have hzz : mi * mj = 0 := by
      rcases hz with h | h <;> simp [h]
    simp [List.getElem?_map, hj, hzz]

/-- C4. Metadata persistence: for every batch element and every
configured number of attention rounds (any `self_attention_blocks`
list, including the empty one), the metadata prefix of the entity
matrix reaching the output heads after the last round equals, for each
entity, the masked metadata block computed at round 0 before the first
attention round. -/
theorem metadata_persistence (m : Model) (inp : Inputs)
    (hs : Shaped inp) (hw : WellFormed m) :
    (entitiesFinal m inp).map (fun r => r.take (metaDataDim m)) =
      metaData m inp :=
  foldl_sabStep_map_take hs hw m.self_attention_blocks (entities0 m inp)
    (length_entities0 m inp hs) rfl

/-! ### Block call semantics and the zero-attention-block path -/

/-- One block of the `self_attention_blocks` list as the constructor
builds it (src/models.py lines 326-351): for `num_sabs >= 1` every
entry is an `attn.SAB` (missing from src/; its row function is
modelled from the spec exactly as in `applySAB`); for `num_sabs = 0`
the single entry is the baseline `nn.Sequential` MLP of lines 333-342,
a plain pointwise feed-forward module. -/
inductive Block where
  | sab (mix : Mat → Mat → ℕ → Vec)
  | seqMLP (f : Vec → Vec)

/-- The call `sab(entities, weights=attention_mask)` of src/models.py
line 209 under Python keyword-argument semantics: an `attn.SAB`
accepts the `weights` keyword and runs; `nn.Sequential.forward` takes
a single positional `input` and no `weights` keyword, so the call
raises `TypeError` (`Except.error`) before producing any entity
matrix. -/
def callBlock (b : Block) (x w : Mat) : Except Unit Mat :=
  match b with
  | Block.sab mix => Except.ok (applySAB mix x w)
  | Block.seqMLP _ => Except.error ()

/-- One iteration of the attention loop (src/models.py lines 208-212)
with the block call's possible `TypeError` propagated: on success the
Entity Masker is re-applied and the round-0 metadata prefix is
re-concatenated, exactly as in `sabStep`. -/
def sabStepCall (m : Model) (inp : Inputs) (ents : Except Unit Mat)
    (b : Block) : Except Unit Mat :=
  ents.bind (fun e =>
    (callBlock b e (attentionMask inp)).map (fun out =>
      zipCat (metaData m inp) (entityMasker out (expandedMask inp))))

/-- `_ContactTracingTransformer.forward` (src/models.py lines 206-233)
with the block list called under Python keyword-argument semantics: a
`TypeError` raised inside the loop propagates, and the output heads
(lines 213-225) run only if every block call succeeded. -/
def forwardWithBlocks (m : Model) (blocks : List Block) (inp : Inputs) :
    Except Unit Outputs :=
  (blocks.foldl (sabStepCall m inp) (Except.ok (entities0 m inp))).map
    (fun ents =>
      { encounter_variables :=
          ((ents.take (numEncounters inp)).map
            (fun r => r.drop (metaDataDim m))).map m.encounter_mlp
        latent_variable :=
          (ents.drop (numEncounters inp)).map m.latent_variable_mlp })

/-- The block list `ContactTracingTransformer.__init__` builds
(src/models.py lines 326-351): `num_sabs` SAB blocks when
`num_sabs >= 1`, else the single baseline `nn.Sequential` MLP
substituted as the sole transformation. -/
def builtBlocks (num_sabs : ℕ) (mixes : ℕ → Mat → Mat → ℕ → Vec)
    (baseline : Vec → Vec) : List Block :=
  if 1 ≤ num_sabs then
    (List.range num_sabs).map (fun i => Block.sab (mixes i))
  else
    [Block.seqMLP baseline]

/-- C6 (divergence demonstration). The claim covers every
configuration including zero attention blocks, but in that
configuration the constructor's block list is the single baseline
`nn.Sequential` MLP (src/models.py lines 333-342) and the loop calls
it as `sab(entities, weights=attention_mask)` (line 209);
`nn.Sequential` accepts no `weights` keyword, so the forward pass
raises `TypeError` before the output-split code of lines 213-225 and
returns no `encounter_variables` or `latent_variable` at all — for
every model, every batch element and every baseline MLP. -/
theorem output_split_zero_blocks (m : Model) (inp : Inputs)
    (baseline : Vec → Vec) (mixes : ℕ → Mat → Mat → ℕ → Vec) :
    builtBlocks 0 mixes baseline = [Block.seqMLP baseline] ∧
    forwardWithBlocks m (builtBlocks 0 mixes baseline) inp =
      Except.error () := by
  constructor
  · rfl
  · rfl

/-! ### No-leakage machinery -/

/-- Two batch elements that differ only in the per-entity raw feature
values (health, message, day, duration, partner-id) at entity positions
whose mask bit is 0: masks, health profile and all tensor shapes agree,
and every per-entity field agrees at each position whose mask bit is
nonzero. -/
structure MaskedPerturbation (a b : Inputs) : Prop where
  mask_eq : a.mask = b.mask
  vhm_eq : a.valid_history_mask = b.valid_history_mask
  profile_eq : a.health_profile = b.health_profile
  len_hh : a.health_history.length = b.health_history.length
  len_hd : a.history_days.length = b.history_days.length
  len_eh : a.encounter_health.length = b.encounter_health.length
  len_em : a.encounter_message.length = b.encounter_message.length
  len_ed : a.encounter_day.length = b.encounter_day.length
  len_edur : a.encounter_duration.length = b.encounter_duration.length
  len_epid : a.encounter_partner_id.length = b.encounter_partner_id.length
  valid_eh : ∀ (i : ℕ) (v : ℚ), a.mask[i]? = some v → v ≠ 0 →
    a.encounter_health[i]? = b.encounter_health[i]?
  valid_em : ∀ (i : ℕ) (v : ℚ), a.mask[i]? = some v → v ≠ 0 →
    a.encounter_message[i]? = b.encounter_message[i]?
  valid_ed : ∀ (i : ℕ) (v : ℚ), a.mask[i]? = some v → v ≠ 0 →
    a.encounter_day[i]? = b.encounter_day[i]?
  valid_edur : ∀ (i : ℕ) (v : ℚ), a.mask[i]? = some v → v ≠ 0 →
    a.encounter_duration[i]? = b.encounter_duration[i]?
  valid_epid : ∀ (i : ℕ) (v : ℚ), a.mask[i]? = some v → v ≠ 0 →
    a.encounter_partner_id[i]? = b.encounter_partner_id[i]?
  valid_hh : ∀ (t : ℕ) (v : ℚ), a.valid_history_mask[t]? = some v → v ≠ 0 →
    a.health_history[t]? = b.health_history[t]?
  valid_hd : ∀ (t : ℕ) (v : ℚ), a.valid_history_mask[t]? = some v → v ≠ 0 →
    a.history_days[t]? = b.history_days[t]?

theorem MaskedPerturbation.shaped {a b : Inputs}
    (hp : MaskedPerturbation a b) (hs : Shaped a) : Shaped b where
  hh := by rw [← hp.len_hh, ← hp.vhm_eq]; exact hs.hh
  hd := by rw [← hp.len_hd, ← hp.vhm_eq]; exact hs.hd
  eh := by rw [← hp.len_eh, ← hp.mask_eq]; exact hs.eh
  em := by rw [← hp.len_em, ← hp.mask_eq]; exact hs.em
  ed := by rw [← hp.len_ed, ← hp.mask_eq]; exact hs.ed
  edur := by rw [← hp.len_edur, ← hp.mask_eq]; exact hs.edur
  epid := by rw [← hp.len_epid, ← hp.mask_eq]; exact hs.epid

/-- The Entity Masker output only depends on the rows at positions with
a nonzero mask bit, provided the matrices have the same shape. -/
theorem entityMasker_congr {X Y : Mat} {mask : Vec}
    (hlen : X.length = Y.length)
    (hrow : ∀ (i : ℕ) (rX rY : Vec), X[i]? = some rX → Y[i]? = some rY →
      rX.length = rY.length)
    (hval : ∀ (i : ℕ) (v : ℚ), mask[i]? = some v → v ≠ 0 →
      X[i]? = Y[i]?) :
    entityMasker X mask = entityMasker Y mask := by
  apply List.ext_getElem?
  intro i
  rw [getElem?_entityMasker, getElem?_entityMasker]
  cases hm : mask[i]? with
  | none => cases X[i]? <;> cases Y[i]? <;> rfl
  | some v =>
      by_cases hv : v = 0
      · subst hv
        cases hX : X[i]? with
        | none =>
            have hY : Y[i]? = none := by
              rw [List.getElem?_eq_none_iff] at hX ⊢
              omega
            rw [hY]
        | some rX =>
            cases hY : Y[i]? with
            | none =>
                rw [List.getElem?_eq_none_iff] at hY
                have hX' : i < X.length := by
                  by_contra hlt
                  rw [List.getElem?_eq_none_iff.2 (by omega)] at hX
                  exact Option.noConfusion hX
                omega
            | some rY =>
                have := hrow i rX rY hX hY
                simp only [Option.some.injEq]
                rw [map_zero_mul, map_zero_mul, this]
      · rw [hval i v hm hv]

theorem embeddedHealthProfile_congr (m : Model) {a b : Inputs}
    (hp : MaskedPerturbation a b) :
    embeddedHealthProfile m a = embeddedHealthProfile m b := by
  unfold embeddedHealthProfile
  rw [hp.profile_eq]

theorem numEncounters_congr {a b : Inputs} (hp : MaskedPerturbation a b) :
    numEncounters a = numEncounters b := hp.len_eh

theorem numHistoryDays_congr {a b : Inputs} (hp : MaskedPerturbation a b) :
    numHistoryDays a = numHistoryDays b := hp.len_hh

theorem encounterEntities_valid_congr (m : Model) {a b : Inputs}
    (hp : MaskedPerturbation a b) {i : ℕ} {v : ℚ}
    (hv : a.mask[i]? = some v) (hvne : v ≠ 0) :
    (encounterEntities m a)[i]? = (encounterEntities m b)[i]? := by
  have h1 := hp.valid_ed i v hv hvne
  have h2 := hp.valid_epid i v hv hvne
  have h3 := hp.valid_edur i v hv hvne
  have h4 := hp.valid_eh i v hv hvne
  have h5 := hp.valid_em i v hv hvne
  cases hpe : m.partner_id_embedding with
  | none =>
      simp only [encounterEntities, embeddedEncounterDay,
        embeddedEncounterPartnerIds, hpe, embeddedEncounterDuration,
        embeddedEncounterHealth, embeddedEncounterMessages,
        pidPlaceholderBroadcast, getElem?_zipCat, getElem?_embMap,
        getElem?_entityMasker, embeddedHealthProfile_congr m hp,
        numEncounters_congr hp, hp.mask_eq, h1, h3, h4, h5]
  | some f =>
      simp only [encounterEntities, embeddedEncounterDay,
        embeddedEncounterPartnerIds, hpe, embeddedEncounterDuration,
        embeddedEncounterHealth, embeddedEncounterMessages,
        getElem?_zipCat, getElem?_embMap,
        embeddedHealthProfile_congr m hp,
        numEncounters_congr hp, hp.mask_eq, h1, h2, h3, h4, h5]

theorem selfEntities_valid_congr (m : Model) {a b : Inputs}
    (hp : MaskedPerturbation a b) {t : ℕ} {v : ℚ}
    (hv : a.valid_history_mask[t]? = some v) (hvne : v ≠ 0) :
    (selfEntities m a)[t]? = (selfEntities m b)[t]? := by
  have h1 := hp.valid_hd t v hv hvne
  have h2 := hp.valid_hh t v hv hvne
  simp only [selfEntities, embeddedHistoryDays, embeddedHealthHistory,
    getElem?_zipCat, getElem?_embMap, embeddedHealthProfile_congr m hp,
    numHistoryDays_congr hp, hp.vhm_eq, h1, h2]

theorem expandedMask_congr {a b : Inputs} (hp : MaskedPerturbation a b) :
    expandedMask a = expandedMask b := by
  unfold expandedMask
  rw [hp.mask_eq, hp.vhm_eq]

theorem entityWidth_congr (m : Model) {a b : Inputs}
    (hp : MaskedPerturbation a b) :
    entityWidth m a = entityWidth m b := by
  unfold entityWidth
  rw [embeddedHealthProfile_congr m hp]

theorem entities0_congr (m : Model) {a b : Inputs} (hw : WellFormed m)
    (hs : Shaped a) (hp : MaskedPerturbation a b) :
    entities0 m a = entities0 m b := by
  have hsb : Shaped b := hp.shaped hs
  unfold entities0
  rw [expandedMask_congr hp]
  apply entityMasker_congr
  · rw [List.length_append, List.length_append,
      length_encounterEntities m a hs, length_encounterEntities m b hsb,
      length_selfEntities m a hs, length_selfEntities m b hsb,
      hp.mask_eq, hp.vhm_eq]
  · intro i rX rY hX hY
    rw [List.getElem?_append] at hX hY
    have hXw : rX.length = entityWidth m a := by
      split at hX
      · exact row_length_encounterEntities hw hX
      · exact row_length_selfEntities hw hX
    have hYw : rY.length = entityWidth m b := by
      split at hY
      · exact row_length_encounterEntities hw hY
      · exact row_length_selfEntities hw hY
    rw [hXw, hYw, entityWidth_congr m hp]
  · intro i v hv hvne
    have hmask_len : b.mask.length = a.mask.length := by rw [hp.mask_eq]
    have hlenA : (encounterEntities m a).length = a.mask.length :=
      length_encounterEntities m a hs
    have hlenB : (encounterEntities m b).length = a.mask.length := by
      rw [length_encounterEntities m b hsb, hmask_len]
    simp only [expandedMask] at hv
    by_cases hi : i < a.mask.length
    · have hvA : a.mask[i]? = some v := by
        rw [List.getElem?_append_left (by omega)] at hv
        rw [hp.mask_eq]
        exact hv
      rw [List.getElem?_append_left (by omega : i < (encounterEntities m a).length),
        List.getElem?_append_left (by omega : i < (encounterEntities m b).length)]
      exact encounterEntities_valid_congr m hp hvA hvne
    · have hvA : a.valid_history_mask[i - a.mask.length]? = some v := by
        rw [List.getElem?_append_right (by omega), hmask_len] at hv
        rw [hp.vhm_eq]
        exact hv
      rw [List.getElem?_append_right (by omega : (encounterEntities m a).length ≤ i),
        List.getElem?_append_right (by omega : (encounterEntities m b).length ≤ i),
        hlenA, hlenB]
      exact selfEntities_valid_congr m hp hvA hvne

theorem metaData_congr (m : Model) {a b : Inputs} (hw : WellFormed m)
    (hs : Shaped a) (hp : MaskedPerturbation a b) :
    metaData m a = metaData m b := by
  unfold metaData
  rw [entities0_congr m hw hs hp]

theorem attentionMask_congr {a b : Inputs} (hp : MaskedPerturbation a b) :
    attentionMask a = attentionMask b := by
  unfold attentionMask
  rw [expandedMask_congr hp]

theorem sabStep_congr (m : Model) {a b : Inputs} (hw : WellFormed m)
    (hs : Shaped a) (hp : MaskedPerturbation a b)
    (ents : Mat) (mix : Mat → Mat → ℕ → Vec) :
    sabStep m a ents mix = sabStep m b ents mix := by
  unfold sabStep
  rw [metaData_congr m hw hs hp, attentionMask_congr hp,
    expandedMask_congr hp]

theorem entitiesFinal_congr (m : Model) {a b : Inputs} (hw : WellFormed m)
    (hs : Shaped a) (hp : MaskedPerturbation a b) :
    entitiesFinal m a = entitiesFinal m b := by
  unfold entitiesFinal
  rw [entities0_congr m hw hs hp]
  exact List.foldl_ext _ _ _
    (fun ents mix _ => sabStep_congr m hw hs hp ents mix)

theorem forward_congr (m : Model) {a b : Inputs} (hw : WellFormed m)
    (hs : Shaped a) (hp : MaskedPerturbation a b) :
    forward m a = forward m b := by
  unfold forward encounterVariables preEncounterVariables latentVariable
    preLatentVariable
  rw [entitiesFinal_congr m hw hs hp, numEncounters_congr hp]

/-- C1. No-leakage: for every pair of batch elements that differ only
in the raw feature values (health, message, day, duration, partner-id)
at entity positions whose mask bit is 0 (`MaskedPerturbation`), the
forward pass produces identical outputs — in particular identical
values of `encounter_variables` and `latent_variable` at every position
whose mask bit is 1. -/
theorem no_leakage (m : Model) (a b : Inputs) (hw : WellFormed m)
    (hs : Shaped a) (hp : MaskedPerturbation a b) :
    forward m a = forward m b ∧
    (∀ (i : ℕ), a.mask[i]? = some 1 →
      (forward m a).encounter_variables[i]? =
        (forward m b).encounter_variables[i]?) ∧
    (∀ (t : ℕ), a.valid_history_mask[t]? = some 1 →
      (forward m a).latent_variable[t]? =
        (forward m b).latent_variable[t]?) := by
  have h := forward_congr m hw hs hp
  exact ⟨h, fun i _ => by rw [h], fun t _ => by rw [h]⟩

/-- C8. Partner-id noninterference when disabled: for a model with
`partner_id_embedding = none` (`use_encounter_partner_id_embedding=False`),
replacing the raw `encounter_partner_id` field by anything leaves the
forward output identical (shapes included), the partner-id embedding
used is the learned placeholder broadcast to every encounter position
passed through the Entity Masker, and it is the zero vector at every
padded position. -/
theorem partner_id_noninterference (m : Model) (inp : Inputs) (pid' : Mat)
    (h : m.partner_id_embedding = none) :
    forward m { inp with encounter_partner_id := pid' } = forward m inp ∧
    embeddedEncounterPartnerIds m inp =
      entityMasker (pidPlaceholderBroadcast m inp) inp.mask ∧
    (∀ (i : ℕ) (r : Vec), inp.mask[i]? = some 0 →
      (embeddedEncounterPartnerIds m inp)[i]? = some r → AllZero r) := by
  refine ⟨?_, ?_, ?_⟩
  · cases m with
    | mk td pd dd hd md hhe hpe te de pe me sab lmlp emlp mph pph dph
        eof lof =>
        subst h
        rfl
  · simp only [embeddedEncounterPartnerIds, h]
  · intro i r h0 hr
    simp only [embeddedEncounterPartnerIds, h] at hr
    rcases entityMasker_eq_some.1 hr with ⟨s, b, _, hb, hmap⟩
    have hb0 : b = 0 := by
      rw [h0] at hb
      exact (Option.some.inj hb).symm
    subst hb0
    rw [← hmap]
    exact allZero_zero_mul s

/-- C10. Shared partner-id placeholder across entity kinds: with the
partner-id embedder disabled, the one `partner_id_placeholder`
parameter supplies the partner-id channels of both entity kinds: the
pre-mask broadcast for every encounter position is that placeholder,
the partner-id channel slice of every assembled self-entity is that
placeholder, and hence the two slices are identical — the channel
cannot distinguish an encounter from a self-day. -/
theorem shared_partner_id_placeholder (m : Model) (inp : Inputs)
    (h : m.partner_id_embedding = none) (hw : WellFormed m) :
    embeddedEncounterPartnerIds m inp =
      entityMasker (pidPlaceholderBroadcast m inp) inp.mask ∧
    (∀ (j : ℕ), j < numEncounters inp →
      (pidPlaceholderBroadcast m inp)[j]? = some m.partner_id_placeholder) ∧
    (∀ (t : ℕ) (r : Vec), (selfEntities m inp)[t]? = some r →
      (r.drop m.time_dim).take m.pid_dim = m.partner_id_placeholder) ∧
    (∀ (j t : ℕ) (r : Vec), j < numEncounters inp →
      (selfEntities m inp)[t]? = some r →
      (pidPlaceholderBroadcast m inp)[j]? =
        some ((r.drop m.time_dim).take m.pid_dim)) := by
  have hself : ∀ (t : ℕ) (r : Vec), (selfEntities m inp)[t]? = some r →
      (r.drop m.time_dim).take m.pid_dim = m.partner_id_placeholder := by
    intro t r hr
    rcases zipCat_eq_some.1 hr with ⟨rd, t1, hrd, h1, hc1⟩
    rcases zipCat_eq_some.1 h1 with ⟨rp, t2, hrp, _, hc2⟩
    rcases embMap_eq_some.1 hrd with ⟨x, bb, _, _, hf⟩
    have hdl : rd.length = m.time_dim := by
      rw [← hf]; exact hw.time_len x bb
    have hpl : rp = m.partner_id_placeholder :=
      List.eq_of_mem_replicate (List.getElem?_mem hrp)
    rw [← hc1, List.drop_left' hdl, ← hc2,
      List.take_left' (by rw [hpl]; exact hw.pid_ph_len)]
    exact hpl
  refine ⟨by simp only [embeddedEncounterPartnerIds, h], ?_, hself, ?_⟩
  · intro j hj
    simp [pidPlaceholderBroadcast, hj]
  · intro j t r hj hr
    rw [hself t r hr]
    simp [pidPlaceholderBroadcast, hj]

/-- C7. Degenerate-input totality: on a batch element with zero
encounters, an all-zero encounter mask, or an all-zero history mask,
the (total) forward pass still returns outputs of the contracted
set sizes, and every masked quantity contributes exactly zero: the
round-0 entity row at each invalid position is the zero vector, the
attention-mask row of an invalid entity is all zero, and its column
entry in every row is zero. -/
theorem degenerate_input_totality (m : Model) (inp : Inputs)
    (hs : Shaped inp)
    (_hdeg : numEncounters inp = 0 ∨ (∀ v ∈ inp.mask, v = 0) ∨
      (∀ v ∈ inp.valid_history_mask, v = 0)) :
    ((forward m inp).encounter_variables.length = numEncounters inp ∧
     (forward m inp).latent_variable.length = numHistoryDays inp) ∧
    (∀ (i : ℕ), (expandedMask inp)[i]? = some 0 →
      (∀ r, (entities0 m inp)[i]? = some r → AllZero r) ∧
      (∀ row, (attentionMask inp)[i]? = some row → AllZero row) ∧
      (∀ (j : ℕ) (row : Vec) (v : ℚ), (attentionMask inp)[j]? = some row →
        row[i]? = some v → v = 0)) := by
  refine ⟨⟨?_, ?_⟩, ?_⟩
  · simp [forward, encounterVariables, preEncounterVariables,
      length_entitiesFinal m inp hs, numEncounters, hs.eh]
  · simp [forward, latentVariable, preLatentVariable,
      length_entitiesFinal m inp hs, numEncounters, numHistoryDays,
      hs.eh, hs.hh]
  · intro i h0
    refine ⟨entities0_masked_zero h0, ?_, ?_⟩
    · intro row hrow
      simp only [attentionMask, List.getElem?_map, h0,
        Option.map_some'] at hrow
      rw [← Option.some.inj hrow]
      exact allZero_zero_mul _
    · intro j row v hrow hv
      simp only [attentionMask, List.getElem?_map] at hrow
      rcases Option.map_eq_some'.1 hrow with ⟨mj, hmj, hrow'⟩
      rw [← hrow', List.getElem?_map, h0, Option.map_some'] at hv
      have := Option.some.inj hv
      rw [← this, mul_zero]

/-! ### The diagnose scope (src/models.py lines 53-58) -/

/-- The `diagnose` context manager of `_ContactTracingTransformer`
(src/models.py lines 53-58), with Python generator-based
`@contextmanager` semantics made explicit: `old_diagnose` is saved, the
flag is set to `True`, the wrapped body runs (it observes the flag and
either returns a value or raises); the line `self._diagnose =
old_diagnose` after the bare `yield` is executed only when the body
completes normally — there is no `try`/`finally` — so an exception in
the body propagates out with the flag still `True`. Returns the body's
outcome together with the final flag value. -/
def diagnoseScope {α : Type} (old_diagnose : Bool)
    (body : Bool → Except Unit α) : Except Unit α × Bool :=
  match body true with
  | Except.ok a => (Except.ok a, old_diagnose)
  | Except.error e => (Except.error e, true)

/-- C5 (divergence demonstration). Entering the `diagnose()` scope does
set the flag (the body observes `True`), and on normal completion the
flag is restored to its prior value; but on the exception exit path the
flag is NOT restored: starting from prior value `False` with a raising
body, the final flag is `True`, not the prior `False` — the restore
line after the bare `yield` is skipped because `diagnose` has no
`try`/`finally`. -/
theorem diagnose_scope_flag :
    (diagnoseScope false (fun flag => Except.ok flag)).1 =
      Except.ok true ∧
    (diagnoseScope false (fun _ => Except.ok (0 : ℕ))).2 = false ∧
    (diagnoseScope true (fun _ => Except.ok (0 : ℕ))).2 = true ∧
    (diagnoseScope false
      (fun _ => (Except.error () : Except Unit ℕ))).2 = true ∧
    (diagnoseScope false
      (fun _ => (Except.error () : Except Unit ℕ))).2 ≠ false :=
  ⟨rfl, rfl, rfl, rfl, by decide⟩

/-! ### The constructor (src/models.py lines 236-296) -/

/-- The construction-time configuration fields that
`ContactTracingTransformer.__init__` branches on (src/models.py lines
247-261). -/
structure Config where
  use_learned_time_embedding : Bool
  encounter_duration_embedding_mode : String
  use_encounter_partner_id_embedding : Bool
  num_sabs : ℕ
deriving DecidableEq

/-- Which duration embedder the constructor selects (src/models.py
lines 283-294): `mods.DurationEmbedding` for `"thermo"`,
`mods.PositionalEncoding` for `"sines"`. -/
inductive DurationEmbedderKind where
  | thermo
  | sines
deriving DecidableEq

/-- Which time embedder the constructor selects (src/models.py lines
279-282). -/
inductive TimeEmbedderKind where
  | learned
  | positional
deriving DecidableEq

/-- The configuration-determined skeleton the constructor builds. -/
structure BuiltModel where
  time_embedder : TimeEmbedderKind
  duration_embedder : DurationEmbedderKind
  has_partner_id_embedding : Bool
  num_blocks : ℕ
  first_block_is_mlp : Bool
deriving DecidableEq

/-- The skeleton assembled for a given duration-embedder selection
(src/models.py lines 279-282, 297-303, 326-351). -/
def buildSkeleton (cfg : Config) (dk : DurationEmbedderKind) : BuiltModel :=
  { time_embedder := if cfg.use_learned_time_embedding then
      TimeEmbedderKind.learned else TimeEmbedderKind.positional
    duration_embedder := dk
    has_partner_id_embedding := cfg.use_encounter_partner_id_embedding
    num_blocks := if 1 ≤ cfg.num_sabs then cfg.num_sabs else 1
    first_block_is_mlp := cfg.num_sabs == 0 }

/-- `ContactTracingTransformer.__init__` (src/models.py lines 236-296):
the duration-mode branch raises `ValueError` (modelled as
`Except.error ()`) for any mode string other than `"thermo"` and
`"sines"`, during construction — when it raises, no model value exists
on which `forward` could be called. -/
def mkContactTracingTransformer (cfg : Config) : Except Unit BuiltModel :=
  if cfg.encounter_duration_embedding_mode = "thermo" then
    Except.ok (buildSkeleton cfg DurationEmbedderKind.thermo)
  else if cfg.encounter_duration_embedding_mode = "sines" then
    Except.ok (buildSkeleton cfg DurationEmbedderKind.sines)
  else
    Except.error ()

/-- C9. Configuration-error timing: for every duration-embedding mode
string other than `"thermo"` and `"sines"`, construction raises a
`ValueError` (returns `Except.error`), so it fails before any forward
call is possible; for the two recognized strings construction succeeds
and selects the thermometer resp. sinusoidal duration embedder. -/
theorem construction_error_timing (cfg : Config) :
    (cfg.encounter_duration_embedding_mode ≠ "thermo" →
      cfg.encounter_duration_embedding_mode ≠ "sines" →
      mkContactTracingTransformer cfg = Except.error ()) ∧
    (cfg.encounter_duration_embedding_mode = "thermo" →
      ∃ bm, mkContactTracingTransformer cfg = Except.ok bm ∧
        bm.duration_embedder = DurationEmbedderKind.thermo) ∧
    (cfg.encounter_duration_embedding_mode = "sines" →
      ∃ bm, mkContactTracingTransformer cfg = Except.ok bm ∧
        bm.duration_embedder = DurationEmbedderKind.sines) := by
  refine ⟨?_, ?_, ?_⟩
  · intro h1 h2
    unfold mkContactTracingTransformer
    rw [if_neg h1, if_neg h2]
  · intro h
    refine ⟨buildSkeleton cfg DurationEmbedderKind.thermo, ?_, rfl⟩
    unfold mkContactTracingTransformer
    rw [if_pos h]
  · intro h
    refine ⟨buildSkeleton cfg DurationEmbedderKind.sines, ?_, rfl⟩
    unfold mkContactTracingTransformer
    rw [if_neg (by rw [h]; decide), if_pos h]

/-! ### Concrete instantiations -/

/-- A small concrete model instance: partner-id embedder disabled, one
attention block, every embedding width 1. -/
def cModel : Model :=
  { time_dim := 1
    pid_dim := 1
    dur_dim := 1
    hh_dim := 1
    msg_dim := 1
    health_history_embedding := fun x _ => [x.headD 0]
    health_profile_embedding := fun x => [x.headD 0]
    time_embedding := fun x _ => [x.headD 0]
    duration_embedding := fun x _ => [x.headD 0]
    partner_id_embedding := none
    message_embedding := fun x _ => [x.headD 0]
    self_attention_blocks := [fun x _ i => [(x.getD i []).headD 0]]
    latent_variable_mlp := fun x => [x.headD 0]
    encounter_mlp := fun x => [x.headD 0]
    message_placeholder := [3]
    partner_id_placeholder := [5]
    duration_placeholder := [7]
    encounter_output_features := 1
    latent_variable_output_features := 1 }

theorem cModel_wellFormed : WellFormed cModel where
  time_len := fun _ _ => rfl
  dur_len := fun _ _ => rfl
  hh_len := fun _ _ => rfl
  msg_len := fun _ _ => rfl
  pid_emb_len := fun _ hf => Option.noConfusion hf
  pid_ph_len := rfl
  dur_ph_len := rfl
  msg_ph_len := rfl
  enc_mlp_len := fun _ => rfl
  lat_mlp_len := fun _ => rfl

/-- A concrete batch element: two encounter slots (second one padding),
two history days (second one padding). -/
def inpW : Inputs :=
  { health_history := [[1], [2]]
    health_profile := [4]
    history_days := [[0], [1]]
    valid_history_mask := [1, 0]
    encounter_health := [[1], [2]]
    encounter_message := [[1], [0]]
    encounter_day := [[0], [1]]
    encounter_duration := [[2], [3]]
    encounter_partner_id := [[1], [0]]
    mask := [1, 0] }

theorem inpW_shaped : Shaped inpW := ⟨rfl, rfl, rfl, rfl, rfl, rfl, rfl⟩

/-- `inpW` with every per-entity raw field perturbed at the padded
positions (encounter slot 1 and history day 1, both mask bit 0). -/
def inpW2 : Inputs :=
  { inpW with
    health_history := [[1], [8]]
    history_days := [[0], [6]]
    encounter_health := [[1], [9]]
    encounter_message := [[1], [7]]
    encounter_day := [[0], [4]]
    encounter_duration := [[2], [5]]
    encounter_partner_id := [[1], [2]] }

theorem pertW : MaskedPerturbation inpW inpW2 := by
  constructor <;> first
    | rfl
    | (intro i v hv hvne
       rcases i with _ | _ | i <;> simp_all [inpW, inpW2])

/-- Witness for C1 at the concrete model and perturbed pair. -/
theorem no_leakage_witness :
    forward cModel inpW = forward cModel inpW2 :=
  (no_leakage cModel inpW inpW2 cModel_wellFormed inpW_shaped pertW).1

/-- Witness for C2 at the padded encounter slot after one round. -/
theorem mask_zeroing_witness :
    ∃ r, (entitiesAfter cModel inpW 1)[1]? = some r ∧ AllZero r :=
  ⟨_, rfl, (mask_zeroing cModel inpW 1 1 rfl).1 _ rfl⟩

/-- Witness for C3 at the pair (valid entity 0, padded entity 1). -/
theorem attention_mask_outer_witness :
    attentionMask inpW = maskOuterProduct (expandedMask inpW) ∧
    ∃ row, (attentionMask inpW)[0]? = some row ∧ row[1]? = some 0 :=
  attention_mask_outer inpW 0 1 1 0 rfl rfl (Or.inr rfl)

/-- Witness for C4 at the concrete model and batch element. -/
theorem metadata_persistence_witness :
    (entitiesFinal cModel inpW).map (fun r => r.take (metaDataDim cModel)) =
      metaData cModel inpW :=
  metadata_persistence cModel inpW inpW_shaped cModel_wellFormed

/-- A degenerate batch element: every encounter slot and every history
day is padding (all-zero masks). -/
def inpDeg : Inputs :=
  { health_history := [[1]]
    health_profile := [4]
    history_days := [[0]]
    valid_history_mask := [0]
    encounter_health := [[1], [2]]
    encounter_message := [[1], [0]]
    encounter_day := [[0], [1]]
    encounter_duration := [[2], [3]]
    encounter_partner_id := [[1], [0]]
    mask := [0, 0] }

theorem inpDeg_shaped : Shaped inpDeg := ⟨rfl, rfl, rfl, rfl, rfl, rfl, rfl⟩

/-- Witness for C7 at the all-padding batch element. -/
theorem degenerate_input_totality_witness :
    (forward cModel inpDeg).encounter_variables.length =
      numEncounters inpDeg ∧
    ∃ r, (entities0 cModel inpDeg)[0]? = some r ∧ AllZero r :=
  ⟨(degenerate_input_totality cModel inpDeg inpDeg_shaped
      (Or.inr (Or.inl (by decide)))).1.1,
   ⟨_, rfl, ((degenerate_input_totality cModel inpDeg inpDeg_shaped
      (Or.inr (Or.inl (by decide)))).2 0 rfl).1 _ rfl⟩⟩

/-- Witness for C8: replacing the raw partner ids leaves the output
unchanged on the concrete model (embedder disabled). -/
theorem partner_id_noninterference_witness :
    forward cModel { inpW with encounter_partner_id := [[9], [8]] } =
      forward cModel inpW :=
  (partner_id_noninterference cModel inpW [[9], [8]] rfl).1

/-- A configuration with an unrecognized duration-embedding mode. -/
def cfgBad : Config :=
  { use_learned_time_embedding := true
    encounter_duration_embedding_mode := "fourier"
    use_encounter_partner_id_embedding := false
    num_sabs := 2 }

/-- The same configuration with the recognized mode `"sines"`. -/
def cfgSines : Config :=
  { cfgBad with encounter_duration_embedding_mode := "sines" }

/-- Witness for C9 at a bad and a good mode string. -/
theorem construction_error_timing_witness :
    mkContactTracingTransformer cfgBad = Except.error () ∧
    ∃ bm, mkContactTracingTransformer cfgSines = Except.ok bm ∧
      bm.duration_embedder = DurationEmbedderKind.sines :=
  ⟨(construction_error_timing cfgBad).1 (by decide) (by decide),
   (construction_error_timing cfgSines).2.2 rfl⟩

/-- Witness for C10 at the concrete model and batch element. -/
theorem shared_partner_id_placeholder_witness :
    (pidPlaceholderBroadcast cModel inpW)[0]? =
      some cModel.partner_id_placeholder ∧
    ∃ r, (selfEntities cModel inpW)[0]? = some r ∧
      (r.drop cModel.time_dim).take cModel.pid_dim =
        cModel.partner_id_placeholder :=
  ⟨(shared_partner_id_placeholder cModel inpW rfl cModel_wellFormed).2.1 0
      (by decide),
   ⟨_, rfl, (shared_partner_id_placeholder cModel inpW rfl
      cModel_wellFormed).2.2.1 0 _ rfl⟩⟩

end COVIML
